/-
Verification of the Ansible host_vars generator
(src/py_scripts/gen_host_vars.py) against its specification.

The program is a single-stage batch generator: a fixed catalog of 16
device records is classified by hostname substrings into device types
(superspine / spine / leaf / unknown) and buildings (st1 / st2 / st3),
per-device and global variable mappings are built, and everything is
rendered to text files.  Below is a shallow embedding of that program:
pure Python functions become Lean functions, Python dicts with distinct
keys become ordered association lists, file writing becomes an explicit
update of a filesystem map `String → Option String`.
-/
import Mathlib

namespace GenHostVars

/-! ## String containment, modelling Python's `pat in s` substring test -/

/-- `listBeginsWith pat l` : does `l` start with `pat`? -/
def listBeginsWith : List Char → List Char → Bool
  | [], _ => true
  | _ :: _, [] => false
  | p :: ps, c :: cs => p == c && listBeginsWith ps cs

/-- `listContains pat l` : does `pat` occur as a contiguous sublist of `l`?
This is Python's `pat in s` on the character lists. -/
def listContains (pat : List Char) : List Char → Bool
  | [] => pat.isEmpty
  | c :: cs => listBeginsWith pat (c :: cs) || listContains pat cs

/-- Python's substring test `pat in s`. -/
def strContains (s pat : String) : Bool :=
  listContains pat.data s.data

/-! ## Device catalog (`devices_data`, gen_host_vars.py lines 15-39) -/

/-- One record of the hardcoded device catalog. -/
structure DeviceRecord where
  hostname : String
  loopback0 : String
  loopback1 : String
  mgmt : String
deriving DecidableEq, Repr

/-- The 16 fixed catalog entries (`devices_data`). -/
def devices_data : List DeviceRecord := [
  -- Superspines (Route Reflectors only)
  ⟨"dub-ssp1", "10.10.10.1", "20.20.20.1", "1.1.1.1"⟩,
  ⟨"dub-ssp2", "10.10.10.2", "20.20.20.2", "1.1.1.2"⟩,
  ⟨"dub-ssp3", "10.10.10.3", "20.20.20.3", "1.1.1.3"⟩,
  ⟨"dub-ssp4", "10.10.10.4", "20.20.20.4", "1.1.1.4"⟩,
  -- Building 1 (st1) - VLANs: 100, 200, 300
  ⟨"dub-st1-sp1", "10.10.10.5", "20.20.20.5", "1.1.1.5"⟩,
  ⟨"dub-st1-sp2", "10.10.10.6", "20.20.20.6", "1.1.1.6"⟩,
  ⟨"dub-st1-lf1", "10.10.10.11", "20.20.20.11", "1.1.1.11"⟩,
  ⟨"dub-st1-lf2", "10.10.10.12", "20.20.20.12", "1.1.1.12"⟩,
  -- Building 2 (st2) - VLANs: 200, 300, 400
  ⟨"dub-st2-sp1", "10.10.10.7", "20.20.20.7", "1.1.1.7"⟩,
  ⟨"dub-st2-sp2", "10.10.10.8", "20.20.20.8", "1.1.1.8"⟩,
  ⟨"dub-st2-lf1", "10.10.10.13", "20.20.20.13", "1.1.1.13"⟩,
  ⟨"dub-st2-lf2", "10.10.10.14", "20.20.20.14", "1.1.1.14"⟩,
  -- Building 3 (st3) - VLANs: 100, 300, 400
  ⟨"dub-st3-sp1", "10.10.10.9", "20.20.20.9", "1.1.1.9"⟩,
  ⟨"dub-st3-sp2", "10.10.10.10", "20.20.20.10", "1.1.1.10"⟩,
  ⟨"dub-st3-lf1", "10.10.10.15", "20.20.20.15", "1.1.1.15"⟩,
  ⟨"dub-st3-lf2", "10.10.10.16", "20.20.20.16", "1.1.1.16"⟩]

/-! ## Classifier (gen_host_vars.py lines 41-70) -/

/-- `determine_device_type` (lines 41-50): device type from hostname,
as the Python string it returns. -/
def determine_device_type (hostname : String) : String :=
  if strContains hostname "-ssp" then "superspine"
  else if strContains hostname "-sp" && !strContains hostname "-ssp" then "spine"
  else if strContains hostname "-lf" then "leaf"
  else "unknown"

/-- `extract_building` (lines 52-61): building token from hostname;
Python's `None` becomes `none`. -/
def extract_building (hostname : String) : Option String :=
  if strContains hostname "-st1-" then some "st1"
  else if strContains hostname "-st2-" then some "st2"
  else if strContains hostname "-st3-" then some "st3"
  else none

/-- `get_building_vlans` (lines 63-70): static VLAN lookup,
`vlan_mapping.get(building, [])`. -/
def get_building_vlans (building : Option String) : List Nat :=
  if building == some "st1" then [100, 200, 300]
  else if building == some "st2" then [200, 300, 400]
  else if building == some "st3" then [100, 300, 400]
  else []

/-! ## Values of the variable mappings

Python builds ordered dicts mixing strings, ints, lists and nested dicts,
plus `None`-valued entries whose key is a comment line.  All keys inserted
by this program are distinct, so an ordered association list with a tagged
value type is a faithful model. -/

/-- A nested loopback-interface entry (`description` / `ip_address`). -/
structure Iface where
  description : String
  ip_address : String
deriving DecidableEq, Repr

/-- A value stored in `host_vars` / `group_vars`.  `sentinel` is Python's
`None`, used by the program as a comment marker. -/
inductive YVal where
  | sentinel
  | str (v : String)
  | nat (v : Nat)
  | natList (v : List Nat)
  | natMap (v : List (Nat × Nat))
  | ifaceMap (v : List (String × Iface))
  | strNatListMap (v : List (String × List Nat))
  | natStrListMap (v : List (Nat × List String))
deriving DecidableEq, Repr

/-- Dict lookup on the association-list model.  The program never inserts
a duplicate key, so first-match lookup agrees with Python dict lookup. -/
def lookupVar : List (String × YVal) → String → Option YVal
  | [], _ => none
  | (k, v) :: rest, key => if k == key then some v else lookupVar rest key

/-! ## Variable builder (`generate_host_vars`, lines 72-145) -/

/-- `generate_host_vars` (lines 72-145): the per-device `host_vars` dict,
in insertion order.  `dict.update` with fresh keys appends entries. -/
def generate_host_vars (device : DeviceRecord) : List (String × YVal) :=
  let hostname := device.hostname
  let device_type := determine_device_type hostname
  let building := extract_building hostname
  -- Base configuration for all devices
  let base : List (String × YVal) := [
    ("# Device identification", YVal.sentinel),
    ("hostname", YVal.str hostname),
    ("device_type", YVal.str device_type),
    ("router_id", YVal.str device.loopback0),
    ("# Routing parameters", YVal.sentinel),
    ("ospf_process_id", YVal.nat 1),
    ("ospf_area", YVal.str "0.0.0.0"),
    ("bgp_asn", YVal.nat 65001)]
  -- Superspines: Route Reflectors only (no VTEP functionality)
  let roleFields : List (String × YVal) :=
    if device_type == "superspine" then [
      ("# BGP Route Reflector role", YVal.sentinel),
      ("bgp_role", YVal.str "route_reflector"),
      ("route_reflector_cluster_id", YVal.str "1.1.1.1"),
      ("# Loopback interfaces (RR only)", YVal.sentinel),
      ("loopback_interfaces", YVal.ifaceMap [
        ("loopback0", ⟨"Router-ID for OSPF and BGP Route Reflector",
                       device.loopback0 ++ "/32"⟩)])]
    -- Spines and Leafs: VTEP functionality + BGP clients
    else [
      ("# VTEP configuration", YVal.sentinel),
      ("vtep_ip", YVal.str device.loopback1),
      ("bgp_role", YVal.str "route_reflector_client"),
      ("# Loopback interfaces (VTEP enabled)", YVal.sentinel),
      ("loopback_interfaces", YVal.ifaceMap [
        ("loopback0", ⟨"Router-ID for OSPF and BGP",
                       device.loopback0 ++ "/32"⟩),
        ("loopback1", ⟨"VTEP Loopback for VXLAN",
                       device.loopback1 ++ "/32"⟩)])]
  -- Add building-specific configuration (Python: `if building:`)
  let buildingFields : List (String × YVal) :=
    match building with
    | some b =>
      let building_vlans := get_building_vlans (some b)
      [("# Building-specific configuration", YVal.sentinel),
       ("building", YVal.str b),
       ("vlans", YVal.natList building_vlans)] ++
      -- Add VNI mappings for VTEP devices only
      (if (device_type == "spine" || device_type == "leaf")
          && !building_vlans.isEmpty then
        [("# VLAN to VNI mappings", YVal.sentinel),
         ("vni_mappings",
          YVal.natMap (building_vlans.map (fun vlan => (vlan, vlan + 10000))))]
      else [])
    | none => []
  base ++ roleFields ++ buildingFields

/-! ## Global variables (`create_group_vars`'s dict, lines 177-219) -/

/-- The `group_vars` dict built in `create_group_vars` (lines 177-219),
in insertion order. -/
def group_vars : List (String × YVal) := [
  ("# Global network parameters", YVal.sentinel),
  ("ospf_process_id", YVal.nat 1),
  ("ospf_area", YVal.str "0.0.0.0"),
  ("bgp_asn", YVal.nat 65001),
  ("# VXLAN global settings", YVal.sentinel),
  ("vxlan_udp_port", YVal.nat 4789),
  ("multicast_group", YVal.str "239.1.1.1"),
  ("# Global VLAN to VNI mappings", YVal.sentinel),
  ("global_vni_mappings", YVal.natMap [
    (100, 10100), (200, 10200), (300, 10300), (400, 10400)]),
  ("# Building VLAN assignments", YVal.sentinel),
  ("building_vlans", YVal.strNatListMap [
    ("st1", [100, 200, 300]),
    ("st2", [200, 300, 400]),
    ("st3", [100, 300, 400])]),
  ("# VLAN stretching design", YVal.sentinel),
  ("vlan_stretching", YVal.natStrListMap [
    (100, ["st1", "st3"]),
    (200, ["st1", "st2"]),
    (300, ["st1", "st2", "st3"]),
    (400, ["st2", "st3"])]),
  ("# Route reflector settings", YVal.sentinel),
  ("route_reflector_cluster_id", YVal.str "1.1.1.1"),
  ("# Ansible connection parameters", YVal.sentinel),
  ("ansible_user", YVal.str "admin"),
  ("ansible_password", YVal.str "Firelab33"),
  ("ansible_network_os", YVal.str "cisco.nxos.nxos"),
  ("ansible_connection", YVal.str "ansible.netcommon.network_cli"),
  ("ansible_ssh_common_args", YVal.str "-o StrictHostKeyChecking=no")]

/-! ## Emitters

`create_host_vars_files` and `create_group_vars` write each mapping as
`"---\n"` followed by, per entry, either a blank line plus the bare
comment text (value `None`) or `yaml.dump({key: value},
default_flow_style=False, indent=2)`. -/

/-- Concatenation of a list of text fragments, in order (the sequential
`f.write` calls of a writer loop). -/
def concatTexts : List String → String
  | [] => ""
  | s :: rest => s ++ concatTexts rest

/-- Models the text produced by the external call
`yaml.dump(\x7bkey: value\x7d, default_flow_style=False, indent=2)` for the
value shapes this program emits (plain strings/ints, int lists, flat
int-to-int dicts, two-level nested dicts).  `sentinel` never reaches
`yaml.dump`; it renders as the empty string here. -/
def yamlDump (key : String) (v : YVal) : String :=
  match v with
  | YVal.sentinel => ""
  | YVal.str s => key ++ ": " ++ s ++ "\n"
  | YVal.nat n => key ++ ": " ++ toString n ++ "\n"
  | YVal.natList l =>
      key ++ ":\n" ++ concatTexts (l.map (fun n => "- " ++ toString n ++ "\n"))
  | YVal.natMap l =>
      key ++ ":\n" ++ concatTexts (l.map (fun p =>
        "  " ++ toString p.1 ++ ": " ++ toString p.2 ++ "\n"))
  | YVal.ifaceMap l =>
      key ++ ":\n" ++ concatTexts (l.map (fun p =>
        "  " ++ p.1 ++ ":\n"
          ++ "    description: " ++ p.2.description ++ "\n"
          ++ "    ip_address: " ++ p.2.ip_address ++ "\n"))
  | YVal.strNatListMap l =>
      key ++ ":\n" ++ concatTexts (l.map (fun p =>
        "  " ++ p.1 ++ ":\n"
          ++ concatTexts (p.2.map (fun n => "  - " ++ toString n ++ "\n"))))
  | YVal.natStrListMap l =>
      key ++ ":\n" ++ concatTexts (l.map (fun p =>
        "  " ++ toString p.1 ++ ":\n"
          ++ concatTexts (p.2.map (fun s => "  - " ++ s ++ "\n"))))

/-- The per-device file writer's loop body (lines 162-168 of
`create_host_vars_files`): document-start marker, then each entry in
insertion order. -/
def renderHostVarsFile (host_vars : List (String × YVal)) : String :=
  host_vars.foldl (fun acc kv =>
    match kv.2 with
    | YVal.sentinel => acc ++ "\n" ++ kv.1 ++ "\n"
    | v => acc ++ yamlDump kv.1 v) "---\n"

/-- The global file writer's loop body (lines 222-228 of
`create_group_vars`), a second copy of the same rendering loop. -/
def renderGroupVarsFile (vars : List (String × YVal)) : String :=
  vars.foldl (fun acc kv =>
    match kv.2 with
    | YVal.sentinel => acc ++ "\n" ++ kv.1 ++ "\n"
    | v => acc ++ yamlDump kv.1 v) "---\n"

/-- The rendering of one entry, as the spec describes it: a
sentinel-valued entry becomes a blank line followed by the bare comment
text; any other entry becomes its serialized key/value pair. -/
def entryText (kv : String × YVal) : String :=
  match kv.2 with
  | YVal.sentinel => "\n" ++ kv.1 ++ "\n"
  | v => yamlDump kv.1 v

/-! ## Inventory writer (`create_inventory_file`, lines 232-304) -/

/-- One inventory line: `f"{d.hostname} ansible_host={mgmt_ip}"`.  Every
catalog record carries `mgmt`, so `device.get('mgmt', ...)` is the field. -/
def inventoryLine (d : DeviceRecord) : String :=
  d.hostname ++ " ansible_host=" ++ d.mgmt ++ "\n"

/-- The `superspines` list of `create_inventory_file` (line 236). -/
def inventorySuperspines (devices : List DeviceRecord) : List DeviceRecord :=
  devices.filter (fun d => determine_device_type d.hostname == "superspine")

/-- The `spines` list of `create_inventory_file` (line 237). -/
def inventorySpines (devices : List DeviceRecord) : List DeviceRecord :=
  devices.filter (fun d => determine_device_type d.hostname == "spine")

/-- The `leafs` list of `create_inventory_file` (line 238). -/
def inventoryLeafs (devices : List DeviceRecord) : List DeviceRecord :=
  devices.filter (fun d => determine_device_type d.hostname == "leaf")

/-- The `buildings[b]` list of `create_inventory_file` (lines 241-245):
devices whose hostname resolves to building `b`, in catalog order. -/
def buildingGroup (b : String) (devices : List DeviceRecord) : List DeviceRecord :=
  devices.filter (fun d => extract_building d.hostname == some b)

/-- One building section of the inventory (lines 268-273): emitted only
when the building's device list is non-empty. -/
def buildingSection (b : String) (devices : List DeviceRecord) : String :=
  let devs := buildingGroup b devices
  if devs.isEmpty then ""
  else "\n[" ++ b ++ "]\n" ++ concatTexts (devs.map inventoryLine)

/-- `inventory.ini` content built by `create_inventory_file`. -/
def inventoryContent (devices : List DeviceRecord) : String :=
  "# Multi-Building Campus EVPN Lab Inventory\n"
    ++ "# 4 Superspines + 3 Buildings with selective VLAN stretching\n"
    ++ "\n[superspines]\n"
    ++ concatTexts ((inventorySuperspines devices).map inventoryLine)
    ++ "\n[spines]\n"
    ++ concatTexts ((inventorySpines devices).map inventoryLine)
    ++ "\n[leafs]\n"
    ++ concatTexts ((inventoryLeafs devices).map inventoryLine)
    ++ buildingSection "st1" devices
    ++ buildingSection "st2" devices
    ++ buildingSection "st3" devices
    ++ "\n# Hierarchical groups\n[all:children]\nsuperspines\nspines\nleafs\n"
    ++ "\n# Device type groups for targeted playbook runs\n"
    ++ "[route_reflectors:children]\nsuperspines\n"
    ++ "\n[vtep_devices:children]\nspines\nleafs\n"
    ++ "\n# Building groups for VLAN-specific deployments\n"
    ++ "[building_st1:children]\nst1\n"
    ++ "\n[building_st2:children]\nst2\n"
    ++ "\n[building_st3:children]\nst3\n"

/-- The static `README.md` content written by `create_readme`
(lines 306-377); fixed text, not derived from the catalog. -/
def readmeContent : String :=
  "# Multi-Building Campus EVPN Lab\n"
    ++ "Generated Ansible files for your GNS3 lab topology.\n"
    ++ "\n## Topology Overview\n"
    ++ "- **4 Superspines**: Route Reflectors only (dub-ssp1-4)\n"
    ++ "- **3 Buildings**: Connected via dark fiber\n"
    ++ "  - Building st1: VLANs 100, 200, 300\n"
    ++ "  - Building st2: VLANs 200, 300, 400  \n"
    ++ "  - Building st3: VLANs 100, 300, 400\n"
    ++ "\n## VLAN Stretching Design\n"
    ++ "- VLAN 100: st1 ↔ st3\n"
    ++ "- VLAN 200: st1 ↔ st2\n"
    ++ "- VLAN 300: st1 ↔ st2 ↔ st3 (global)\n"
    ++ "- VLAN 400: st2 ↔ st3\n"
    ++ "\n## Usage Examples\n"
    ++ "\n### Test connectivity\n"
    ++ "```bash\nansible all -i inventory.ini -m ping\n```\n"
    ++ "\n### Configure loopbacks (underlay foundation)\n"
    ++ "```bash\nansible-playbook -i inventory.ini loopback_config.yml -v\n```\n"
    ++ "\n### Deploy BGP EVPN (overlay)\n"
    ++ "```bash\nansible-playbook -i inventory.ini bgp_evpn_config.yml -v\n```\n"
    ++ "\n### Target specific device types\n"
    ++ "```bash\n"
    ++ "ansible-playbook -i inventory.ini playbook.yml --limit superspines\n"
    ++ "ansible-playbook -i inventory.ini playbook.yml --limit building_st1\n"
    ++ "ansible-playbook -i inventory.ini playbook.yml --limit vtep_devices\n"
    ++ "```\n"
    ++ "\n### Dry run (check mode)\n"
    ++ "```bash\nansible-playbook -i inventory.ini playbook.yml --check\n```\n"
    ++ "\n## File Structure\n"
    ++ "```\n"
    ++ "├── host_vars/          # Individual device variables\n"
    ++ "│   ├── dub-ssp1.yml\n"
    ++ "│   ├── dub-st1-sp1.yml\n"
    ++ "│   └── ...\n"
    ++ "├── group_vars/         # Global variables\n"
    ++ "│   └── all.yml\n"
    ++ "├── inventory.ini       # Device inventory\n"
    ++ "└── README.md          # This file\n"
    ++ "```\n"
    ++ "\n## Next Steps\n"
    ++ "1. Update management IP addresses in inventory.ini if needed\n"
    ++ "2. Test basic connectivity with ping module\n"
    ++ "3. Deploy underlay configuration (OSPF + loopbacks)\n"
    ++ "4. Deploy overlay configuration (BGP EVPN)\n"
    ++ "5. Add access layer configuration per building\n"

/-! ## Filesystem model and the whole generation run -/

/-- A filesystem: path to file content. -/
def FS : Type := String → Option String

/-- Writing one file: `open(path, 'w')` truncates, so the new content
replaces whatever was there. -/
def writeFile (fs : FS) (path content : String) : FS :=
  fun p => if p == path then some content else fs p

/-- Every (path, content) pair the generator writes, in write order:
the 16 host_vars files, then group_vars/all.yml, inventory.ini and
README.md (`main`, lines 402-407). -/
def outputFiles (devices : List DeviceRecord) : List (String × String) :=
  devices.map (fun d =>
    ("host_vars/" ++ d.hostname ++ ".yml",
     renderHostVarsFile (generate_host_vars d)))
  ++ [("group_vars/all.yml", renderGroupVarsFile group_vars),
      ("inventory.ini", inventoryContent devices),
      ("README.md", readmeContent)]

/-- One full generation run over the fixed catalog, as a filesystem
transformer. -/
def runGeneration (fs : FS) : FS :=
  (outputFiles devices_data).foldl (fun acc pc => writeFile acc pc.1 pc.2) fs

/-- The content the run leaves at `p`: the last write to `p`, if any. -/
def lastWritten : List (String × String) → String → Option String
  | [], _ => none
  | (k, v) :: rest, p =>
    match lastWritten rest p with
    | some c => some c
    | none => if p == k then some v else none

/-- The VLAN→VNI entries of a built mapping: the `vni_mappings` value
when present, `[]` otherwise. -/
def vniEntries (vars : List (String × YVal)) : List (Nat × Nat) :=
  match lookupVar vars "vni_mappings" with
  | some (YVal.natMap l) => l
  | _ => []

/-- The entries of the global `global_vni_mappings` table of
`group_vars`. -/
def globalVniEntries : List (Nat × Nat) :=
  match lookupVar group_vars "global_vni_mappings" with
  | some (YVal.natMap l) => l
  | _ => []

/-! ## Claims -/

/-- C2: for every hostname, `determine_device_type` returns `superspine`
exactly on hostnames containing `"-ssp"`; `spine` exactly on those
containing `"-sp"` but not `"-ssp"`; `leaf` exactly on the remaining ones
containing `"-lf"`; `unknown` otherwise — and the three spec examples. -/
theorem C2_device_type_classifier :
    (∀ h : String,
      (determine_device_type h = "superspine" ↔ strContains h "-ssp" = true) ∧
      (determine_device_type h = "spine" ↔
        (strContains h "-sp" = true ∧ strContains h "-ssp" = false)) ∧
      (determine_device_type h = "leaf" ↔
        (strContains h "-lf" = true ∧ strContains h "-sp" = false ∧
         strContains h "-ssp" = false)) ∧
      (determine_device_type h = "unknown" ↔
        (strContains h "-ssp" = false ∧ strContains h "-sp" = false ∧
         strContains h "-lf" = false))) ∧
    determine_device_type "dub-ssp1" = "superspine" ∧
    determine_device_type "dub-st1-sp1" = "spine" ∧
    determine_device_type "dub-st1-lf1" = "leaf" := by
  refine ⟨fun h => ?_, by decide, by decide, by decide⟩
  cases hssp : strContains h "-ssp" <;>
    cases hsp : strContains h "-sp" <;>
      cases hlf : strContains h "-lf" <;>
        simp [determine_device_type, hssp, hsp, hlf]

/-- C5 counterexample: the claim reads `extract_building` as returning
`st2` exactly when the hostname contains `"-st2-"`, but on a hostname
containing both `"-st1-"` and `"-st2-"` the first check wins and the
result is `st1`, not `st2`. -/
theorem C5_building_counterexample :
    strContains "dub-st1-st2-lf1" "-st2-" = true ∧
    extract_building "dub-st1-st2-lf1" = some "st1" ∧
    extract_building "dub-st1-st2-lf1" ≠ some "st2" := by
  decide

/-- C5 amended: `extract_building` checks the tokens in the fixed order
st1, st2, st3, returning the first that occurs as an exact substring:
st1 exactly when `"-st1-"` occurs; st2 exactly when `"-st2-"` occurs and
`"-st1-"` does not; st3 exactly when `"-st3-"` occurs and neither earlier
token does; none exactly when no token occurs — and the two spec
examples. -/
theorem C5_building_classifier_amended :
    (∀ h : String,
      (extract_building h = some "st1" ↔ strContains h "-st1-" = true) ∧
      (extract_building h = some "st2" ↔
        (strContains h "-st2-" = true ∧ strContains h "-st1-" = false)) ∧
      (extract_building h = some "st3" ↔
        (strContains h "-st3-" = true ∧ strContains h "-st2-" = false ∧
         strContains h "-st1-" = false)) ∧
      (extract_building h = none ↔
        (strContains h "-st1-" = false ∧ strContains h "-st2-" = false ∧
         strContains h "-st3-" = false))) ∧
    extract_building "dub-st2-lf2" = some "st2" ∧
    extract_building "dub-ssp3" = none := by
  refine ⟨fun h => ?_, by decide, by decide⟩
  cases h1 : strContains h "-st1-" <;>
    cases h2 : strContains h "-st2-" <;>
      cases h3 : strContains h "-st3-" <;>
        simp [extract_building, h1, h2, h3]

/-- C6: `get_building_vlans` is a total static lookup returning
`[100, 200, 300]` for st1, `[200, 300, 400]` for st2, `[100, 300, 400]`
for st3, and `[]` for every other input. -/
theorem C6_building_vlans_total :
    get_building_vlans (some "st1") = [100, 200, 300] ∧
    get_building_vlans (some "st2") = [200, 300, 400] ∧
    get_building_vlans (some "st3") = [100, 300, 400] ∧
    (∀ b : Option String,
      b ≠ some "st1" → b ≠ some "st2" → b ≠ some "st3" →
      get_building_vlans b = []) := by
  refine ⟨by decide, by decide, by decide, fun b h1 h2 h3 => ?_⟩
  simp only [get_building_vlans, beq_iff_eq]
  rw [if_neg h1, if_neg h2, if_neg h3]

/-- Witness for C6 at the concrete unrecognized inputs `some "st4"`. -/
theorem C6_building_vlans_total_witness :
    get_building_vlans (some "st4") = [] :=
  C6_building_vlans_total.2.2.2 (some "st4")
    (by decide) (by decide) (by decide)

/-- C7: the catalog has exactly 16 records, every one classifies to
superspine, spine or leaf (never unknown), and the inventory sections
hold exactly 4 superspines, 6 spines, 6 leafs and 4 devices per
building. -/
theorem C7_catalog_and_inventory_counts :
    devices_data.length = 16 ∧
    (devices_data.all (fun d =>
       determine_device_type d.hostname == "superspine"
       || determine_device_type d.hostname == "spine"
       || determine_device_type d.hostname == "leaf")) = true ∧
    (inventorySuperspines devices_data).length = 4 ∧
    (inventorySpines devices_data).length = 6 ∧
    (inventoryLeafs devices_data).length = 6 ∧
    (buildingGroup "st1" devices_data).length = 4 ∧
    (buildingGroup "st2" devices_data).length = 4 ∧
    (buildingGroup "st3" devices_data).length = 4 := by
  decide

/-- C1: for every catalog spine/leaf device with a resolved building,
every `vni_mappings` entry maps its VLAN key `v` to `v + 10000`, and
every entry of the global VLAN-to-VNI table in `group_vars` does the
same. -/
theorem C1_vni_equals_vlan_plus_10000 :
    (∀ d ∈ devices_data,
      (determine_device_type d.hostname = "spine" ∨
       determine_device_type d.hostname = "leaf") →
      extract_building d.hostname ≠ none →
      ∀ p ∈ vniEntries (generate_host_vars d), p.2 = p.1 + 10000) ∧
    (∀ p ∈ globalVniEntries, p.2 = p.1 + 10000) := by
  constructor
  · decide
  · decide

/-- Witness for C1 at device dub-st1-sp1 and its entry (300, 10300). -/
theorem C1_vni_equals_vlan_plus_10000_witness :
    ((300, 10300) ∈
       vniEntries (generate_host_vars
         ⟨"dub-st1-sp1", "10.10.10.5", "20.20.20.5", "1.1.1.5"⟩)) ∧
    (10300 : Nat) = 300 + 10000 :=
  ⟨by decide,
   C1_vni_equals_vlan_plus_10000.1
     ⟨"dub-st1-sp1", "10.10.10.5", "20.20.20.5", "1.1.1.5"⟩
     (by decide) (by decide) (by decide) (300, 10300) (by decide)⟩

/-- C3: for every catalog device, a superspine's host_vars has no
`vtep_ip` but has `bgp_role = route_reflector` and a
`route_reflector_cluster_id`; a spine or leaf has `vtep_ip` equal to its
second loopback and no `route_reflector_cluster_id`. -/
theorem C3_role_fields :
    ∀ d ∈ devices_data,
      (determine_device_type d.hostname = "superspine" →
        lookupVar (generate_host_vars d) "vtep_ip" = none ∧
        lookupVar (generate_host_vars d) "bgp_role"
          = some (YVal.str "route_reflector") ∧
        lookupVar (generate_host_vars d) "route_reflector_cluster_id"
          = some (YVal.str "1.1.1.1")) ∧
      ((determine_device_type d.hostname = "spine" ∨
        determine_device_type d.hostname = "leaf") →
        lookupVar (generate_host_vars d) "vtep_ip"
          = some (YVal.str d.loopback1) ∧
        lookupVar (generate_host_vars d) "route_reflector_cluster_id"
          = none) := by
  decide

/-- Witness for C3 at the superspine dub-ssp1. -/
theorem C3_role_fields_witness :
    lookupVar (generate_host_vars
        ⟨"dub-ssp1", "10.10.10.1", "20.20.20.1", "1.1.1.1"⟩) "vtep_ip"
      = none ∧
    lookupVar (generate_host_vars
        ⟨"dub-ssp1", "10.10.10.1", "20.20.20.1", "1.1.1.1"⟩) "bgp_role"
      = some (YVal.str "route_reflector") ∧
    lookupVar (generate_host_vars
        ⟨"dub-ssp1", "10.10.10.1", "20.20.20.1", "1.1.1.1"⟩)
        "route_reflector_cluster_id"
      = some (YVal.str "1.1.1.1") :=
  (C3_role_fields
    ⟨"dub-ssp1", "10.10.10.1", "20.20.20.1", "1.1.1.1"⟩
    (by decide)).1 (by decide)

/-- C10: a device record whose hostname matches no type pattern
(`unknown`) falls into the else-branch of the superspine test and is
built like a VTEP device: `vtep_ip` equal to its `loopback1`,
`bgp_role = route_reflector_client`, and both loopback interface
entries. -/
theorem C10_unknown_gets_vtep_branch :
    ∀ d : DeviceRecord, determine_device_type d.hostname = "unknown" →
      lookupVar (generate_host_vars d) "vtep_ip"
        = some (YVal.str d.loopback1) ∧
      lookupVar (generate_host_vars d) "bgp_role"
        = some (YVal.str "route_reflector_client") ∧
      lookupVar (generate_host_vars d) "loopback_interfaces"
        = some (YVal.ifaceMap [
            ("loopback0", ⟨"Router-ID for OSPF and BGP",
                           d.loopback0 ++ "/32"⟩),
            ("loopback1", ⟨"VTEP Loopback for VXLAN",
                           d.loopback1 ++ "/32"⟩)]) := by
  intro d h
  refine ⟨?_, ?_, ?_⟩ <;> simp [generate_host_vars, h, lookupVar]

/-- Witness for C10 at a concrete record with an unclassifiable
hostname. -/
theorem C10_unknown_gets_vtep_branch_witness :
    lookupVar (generate_host_vars
        ⟨"dub-core1", "10.0.0.1", "20.0.0.1", "1.1.1.99"⟩) "vtep_ip"
      = some (YVal.str "20.0.0.1") ∧
    lookupVar (generate_host_vars
        ⟨"dub-core1", "10.0.0.1", "20.0.0.1", "1.1.1.99"⟩) "bgp_role"
      = some (YVal.str "route_reflector_client") ∧
    lookupVar (generate_host_vars
        ⟨"dub-core1", "10.0.0.1", "20.0.0.1", "1.1.1.99"⟩)
        "loopback_interfaces"
      = some (YVal.ifaceMap [
          ("loopback0", ⟨"Router-ID for OSPF and BGP", "10.0.0.1" ++ "/32"⟩),
          ("loopback1", ⟨"VTEP Loopback for VXLAN", "20.0.0.1" ++ "/32"⟩)]) :=
  C10_unknown_gets_vtep_branch
    ⟨"dub-core1", "10.0.0.1", "20.0.0.1", "1.1.1.99"⟩ (by decide)

/-- C4: `generate_host_vars` adds the `building` and `vlans` fields
exactly when a building was resolved from the hostname, and adds
`vni_mappings` exactly when additionally the device type is spine or
leaf and the building's VLAN list is non-empty; the VNI entries are the
building's VLANs in order, each mapped to itself plus 10000. -/
theorem C4_building_fields :
    ∀ d : DeviceRecord,
      (extract_building d.hostname = none →
        lookupVar (generate_host_vars d) "building" = none ∧
        lookupVar (generate_host_vars d) "vlans" = none ∧
        lookupVar (generate_host_vars d) "vni_mappings" = none) ∧
      (∀ b, extract_building d.hostname = some b →
        lookupVar (generate_host_vars d) "building" = some (YVal.str b) ∧
        lookupVar (generate_host_vars d) "vlans"
          = some (YVal.natList (get_building_vlans (some b))) ∧
        (((determine_device_type d.hostname = "spine" ∨
           determine_device_type d.hostname = "leaf") ∧
          get_building_vlans (some b) ≠ []) →
          lookupVar (generate_host_vars d) "vni_mappings"
            = some (YVal.natMap ((get_building_vlans (some b)).map
                (fun vlan => (vlan, vlan + 10000))))) ∧
        (¬((determine_device_type d.hostname = "spine" ∨
            determine_device_type d.hostname = "leaf") ∧
           get_building_vlans (some b) ≠ []) →
          lookupVar (generate_host_vars d) "vni_mappings" = none)) := by
  intro d
  constructor
  · intro hb
    cases hss : determine_device_type d.hostname == "superspine" <;>
      simp [generate_host_vars, hb, hss, lookupVar]
  · intro b hb
    cases hss : determine_device_type d.hostname == "superspine" <;>
      simp_all [generate_host_vars, lookupVar, List.isEmpty_iff]
    split <;> simp_all [lookupVar]

/-- Witness for C4 at the leaf dub-st3-lf1 (building st3 resolved,
VNI mappings present and equal to the ordered image of the VLANs). -/
theorem C4_building_fields_witness :
    lookupVar (generate_host_vars
        ⟨"dub-st3-lf1", "10.10.10.15", "20.20.20.15", "1.1.1.15"⟩)
        "building" = some (YVal.str "st3") ∧
    lookupVar (generate_host_vars
        ⟨"dub-st3-lf1", "10.10.10.15", "20.20.20.15", "1.1.1.15"⟩)
        "vlans" = some (YVal.natList (get_building_vlans (some "st3"))) ∧
    lookupVar (generate_host_vars
        ⟨"dub-st3-lf1", "10.10.10.15", "20.20.20.15", "1.1.1.15"⟩)
        "vni_mappings"
      = some (YVal.natMap ((get_building_vlans (some "st3")).map
          (fun vlan => (vlan, vlan + 10000)))) := by
  have h := (C4_building_fields
    ⟨"dub-st3-lf1", "10.10.10.15", "20.20.20.15", "1.1.1.15"⟩).2
    "st3" (by decide)
  exact ⟨h.1, h.2.1, h.2.2.1 (by decide)⟩

/-- The writer loop appends, left to right, each entry's rendering to
the initial text. -/
theorem renderLoop_eq (m : List (String × YVal)) :
    ∀ init : String,
      (m.foldl (fun acc kv =>
        match kv.2 with
        | YVal.sentinel => acc ++ "\n" ++ kv.1 ++ "\n"
        | v => acc ++ yamlDump kv.1 v) init)
        = init ++ concatTexts (m.map entryText) := by
  induction m with
  | nil => intro init; simp [concatTexts]
  | cons kv rest ih =>
    intro init
    obtain ⟨k, v⟩ := kv
    cases v <;>
      simp only [List.foldl, List.map, concatTexts, entryText] <;>
        rw [ih] <;> simp [String.append_assoc]

/-- C9: the per-device and the global emitter render a mapping
identically, and the rendering is the document-start marker `"---"`
followed, in insertion order, by each entry's text: a blank line plus
the bare comment text for sentinel-valued entries, the serialized
key/value pair for all others. -/
theorem C9_emitters_render_identically :
    (∀ m : List (String × YVal), renderGroupVarsFile m = renderHostVarsFile m) ∧
    (∀ m : List (String × YVal),
      renderHostVarsFile m = "---\n" ++ concatTexts (m.map entryText)) :=
  ⟨fun _ => rfl, fun m => renderLoop_eq m "---\n"⟩

/-- Applying a list of writes to a filesystem: a path holds the last
content written to it, and is untouched when no write names it. -/
theorem foldl_writeFile_eq (outs : List (String × String)) :
    ∀ (fs : FS) (p : String),
      (outs.foldl (fun acc pc => writeFile acc pc.1 pc.2) fs) p =
        match lastWritten outs p with
        | some c => some c
        | none => fs p := by
  induction outs with
  | nil => intro fs p; rfl
  | cons x rest ih =>
    intro fs p
    simp only [List.foldl]
    rw [ih]
    cases hr : lastWritten rest p with
    | some c => simp [lastWritten, hr]
    | none =>
      cases hpk : p == x.1 <;>
        simp [lastWritten, hr, writeFile, hpk]

/-- C8: the generation run is idempotent — running it twice leaves the
same filesystem as running it once — and every file it writes gets the
same content on every run, whatever filesystem the run starts from
(the output depends only on the fixed catalog). -/
theorem C8_generation_idempotent :
    (∀ fs : FS, runGeneration (runGeneration fs) = runGeneration fs) ∧
    (∀ fs1 fs2 : FS, ∀ p c,
      lastWritten (outputFiles devices_data) p = some c →
      runGeneration fs1 p = some c ∧ runGeneration fs2 p = some c) := by
  constructor
  · intro fs
    funext p
    show (outputFiles devices_data).foldl
        (fun acc pc => writeFile acc pc.1 pc.2) (runGeneration fs) p
      = (outputFiles devices_data).foldl
        (fun acc pc => writeFile acc pc.1 pc.2) fs p
    rw [foldl_writeFile_eq, foldl_writeFile_eq]
    cases hr : lastWritten (outputFiles devices_data) p with
    | some c => rfl
    | none =>
      have h2 := foldl_writeFile_eq (outputFiles devices_data) fs p
      rw [hr] at h2
      exact h2
  · intro fs1 fs2 p c h
    have h1 := foldl_writeFile_eq (outputFiles devices_data) fs1 p
    have h2 := foldl_writeFile_eq (outputFiles devices_data) fs2 p
    rw [h] at h1 h2
    exact ⟨h1, h2⟩

/-- Witness for C8: README.md gets the same content whether the run
starts from an empty filesystem or from one holding stale content. -/
theorem C8_generation_idempotent_witness :
    runGeneration (fun _ => none) "README.md" = some readmeContent ∧
    runGeneration (fun _ => some "stale") "README.md" = some readmeContent :=
  C8_generation_idempotent.2 (fun _ => none) (fun _ => some "stale")
    "README.md" readmeContent (by rfl)

end GenHostVars
